import Mathlib

/-!
Verification development for the phone-number verification service.

The embedding models the relational store as in-memory lists of rows in
insertion order (serial primary keys ascend with insertion), timestamps as
integer milliseconds since the epoch (the value of Date.getTime in the
source), and each request handler as a pure state-passing function from the
database value and the current clock reading to a response together with the
updated database.  The handlers are translated from the Twilio-integrated
revisions of src/server/src/handlers, evaluated in the fallback mode in
which no delivery provider is configured (all three provider environment
variables absent), which is the deterministic, locally-checkable path the
automated tests exercise; the randomly generated 6-digit code is passed in
as an explicit parameter.
-/

namespace PhoneVerif

/-- Row of the users table (src/server/src/db/schema.ts, usersTable). -/
structure User where
  id : Nat
  email : String
  first_name : String
  phone_number : Option String
  phone_verified : Bool
  created_at : Int
  updated_at : Int
  deriving Repr, DecidableEq

/-- Row of the phone_verifications table (src/server/src/db/schema.ts,
phoneVerificationsTable). -/
structure PhoneVerification where
  id : Nat
  user_id : Nat
  phone_number : String
  verification_code : String
  twilio_sid : Option String
  verified : Bool
  expires_at : Int
  created_at : Int
  deriving Repr, DecidableEq

/-- The backing store: both tables, rows kept in insertion order. -/
structure DB where
  users : List User
  phoneVerifications : List PhoneVerification
  deriving Repr, DecidableEq

/-- Response shape of startPhoneVerification and resendVerificationCode
(phoneVerificationResponseSchema in src/server/src/schema.ts). -/
structure PhoneVerificationResponse where
  success : Bool
  message : String
  verification_id : Option Nat
  deriving Repr, DecidableEq

/-- Response shape of verifyPhoneCode (verifyCodeResponseSchema in
src/server/src/schema.ts); the user field is optional and is absent when
the update returned no row. -/
structure VerifyCodeResponse where
  success : Bool
  message : String
  user : Option User
  deriving Repr, DecidableEq

/-- One write issued against the store, recorded in execution order so that
ordering claims about the two updates of the verify flow can be stated. -/
inductive DbWrite where
  | markAttemptVerified : Nat → DbWrite
  | updateUserVerified : Nat → String → Int → DbWrite
  deriving Repr, DecidableEq

/-- Models the query SELECT ... WHERE ... ORDER BY created_at DESC LIMIT 1.
The source orders by created_at only (verify_phone_code.ts line 45,
resend_verification_code.ts line 58, start_phone_verification.ts line 72):
there is no id tie-break in the query, so among rows sharing a created_at
the store decides; we model the store returning rows in insertion order,
i.e. a stable descending sort, whose first row is the earliest-inserted row
among those with maximal created_at. -/
def latestAttempt : List PhoneVerification → Option PhoneVerification
  | [] => none
  | r :: rest =>
    match latestAttempt rest with
    | none => some r
    | some b => if b.created_at > r.created_at then some b else some r

/-- Handler verifyPhoneCode (src/server/src/handlers/verify_phone_code.ts,
lines 39-139, fallback mode: code compared by string equality; the purely
local revision at lines 145-221 takes the same path).  Returns the response,
the updated database, and the ordered list of writes performed. -/
def verifyPhoneCode (db : DB) (now : Int) (user_id : Nat)
    (verification_code : String) :
    VerifyCodeResponse × DB × List DbWrite :=
  match latestAttempt (db.phoneVerifications.filter
      (fun a => a.user_id == user_id)) with
  | none =>
    ({ success := false,
       message := "No phone verification found. Please start the verification process first.",
       user := none }, db, [])
  | some verification =>
    if verification.expires_at < now then
      ({ success := false,
         message := "Verification code has expired. Please request a new code.",
         user := none }, db, [])
    else if verification.verified then
      ({ success := false,
         message := "This verification code has already been used.",
         user := none }, db, [])
    else if verification.verification_code == verification_code then
      let attempts1 : List PhoneVerification :=
        db.phoneVerifications.map
          (fun a => if a.id == verification.id then { a with verified := true } else a)
      let db1 : DB := { db with phoneVerifications := attempts1 }
      let updatedUsers : List User :=
        (db1.users.filter (fun a => a.id == user_id)).map
          (fun a => { a with phone_number := some verification.phone_number,
                             phone_verified := true, updated_at := now })
      let users2 : List User :=
        db1.users.map
          (fun a => if a.id == user_id then
             { a with phone_number := some verification.phone_number,
                      phone_verified := true, updated_at := now }
           else a)
      let db2 : DB := { db1 with users := users2 }
      ({ success := true,
         message := "Phone number verified successfully.",
         user := updatedUsers.head? }, db2,
       [DbWrite.markAttemptVerified verification.id,
        DbWrite.updateUserVerified user_id verification.phone_number now])
    else
      ({ success := false,
         message := "Invalid verification code. Please try again.",
         user := none }, db, [])

/-- The digit string of an input: the JS expression
phoneNumber.replace of all non-digit characters with nothing. -/
def cleanDigits (s : String) : String :=
  String.mk (s.data.filter Char.isDigit)

/-- The JS test phoneNumber.startsWith of the plus sign: the first
character is a plus sign. -/
def startsWithPlus (s : String) : Bool :=
  match s.data with
  | c :: _ => c == '+'
  | [] => false

/-- Utility formatPhoneNumberE164 (start_phone_verification.ts lines 23-32,
duplicated in resend_verification_code.ts and schema.ts): an input starting
with a plus sign is returned verbatim; otherwise, when the cleaned digit
string has exactly 10 digits, the default country code is prefixed to the
digits; otherwise a plus sign is prefixed to the cleaned digit string. -/
def formatPhoneNumberE164 (phoneNumber : String) : String :=
  let digits := cleanDigits phoneNumber
  if startsWithPlus phoneNumber then phoneNumber
  else if digits.length = 10 then "+1" ++ digits
  else "+" ++ digits

/-- The E.164 regex test of schema.ts line 75: a plus sign, a digit 1-9,
then 1 to 14 further digits. -/
def e164Test (s : String) : Bool :=
  match s.data with
  | '+' :: c :: rest =>
    ('1' ≤ c && c ≤ '9') && (1 ≤ rest.length && rest.length ≤ 14)
      && rest.all Char.isDigit
  | _ => false

/-- Normalization as the claim C8 words it, for comparison with the source
function formatPhoneNumberE164: an input already in E.164 shape is kept; a
bare 10-digit number gets the default country code prefixed; any other
input has a plus sign prefixed to its cleaned digit string. -/
def claimNormalizePhone (s : String) : String :=
  if e164Test s then s
  else if s.length = 10 && s.data.all Char.isDigit then "+1" ++ s
  else "+" ++ cleanDigits s

/-- Serial primary key assignment of the store for the next inserted
verification row. -/
def nextAttemptId (db : DB) : Nat :=
  (db.phoneVerifications.map (fun a => a.id)).foldl max 0 + 1

/-- Handler startPhoneVerification
(src/server/src/handlers/start_phone_verification.ts lines 34-164) in the
fallback mode with no provider configured; freshCode stands for the random
6-digit code generated at line 130. -/
def startPhoneVerification (db : DB) (now : Int) (user_id : Nat)
    (phone_number : String) (freshCode : String) :
    PhoneVerificationResponse × DB :=
  let formatted := formatPhoneNumberE164 phone_number
  match (db.users.filter (fun a => a.id == user_id)).head? with
  | none =>
    ({ success := false, message := "User not found", verification_id := none }, db)
  | some user =>
    if user.phone_verified && (user.phone_number == some formatted) then
      ({ success := false, message := "Phone number is already verified",
         verification_id := none }, db)
    else
      let cooldownHit : Bool :=
        match latestAttempt (db.phoneVerifications.filter
            (fun a => a.user_id == user_id && a.phone_number == formatted)) with
        | some last => (now - last.created_at < 5 * 60 * 1000) && (last.expires_at > now)
        | none => false
      if cooldownHit then
        ({ success := false,
           message := "Verification code already sent recently. Please wait before requesting another.",
           verification_id := none }, db)
      else
        let newRow : PhoneVerification :=
          { id := nextAttemptId db, user_id := user_id, phone_number := formatted,
            verification_code := freshCode, twilio_sid := none, verified := false,
            expires_at := now + 10 * 60 * 1000, created_at := now }
        ({ success := true, message := "Verification code sent successfully",
           verification_id := some newRow.id },
         { db with phoneVerifications := db.phoneVerifications ++ [newRow] })

/-- The zod boundary validation of the start input (schema.ts lines 61-82,
startPhoneVerificationInputSchema): the handler only runs when the
formatted number passes the E.164 regex; otherwise the invocation is
rejected with a validation error before any store access.  superRefine does
not transform the value, so the handler receives the raw input. -/
def startPhoneVerificationChecked (db : DB) (now : Int) (user_id : Nat)
    (phone_number : String) (freshCode : String) :
    Except String (PhoneVerificationResponse × DB) :=
  if e164Test (formatPhoneNumberE164 phone_number) then
    Except.ok (startPhoneVerification db now user_id phone_number freshCode)
  else
    Except.error "Phone number must be in E.164 format (e.g., +1234567890)"

/-- The ceiling computation of resend_verification_code.ts line 78,
Math.ceil of (cooldownPeriod - timeSinceLastAttempt) / 1000, written for
the in-cooldown branch where the difference is a positive integer, on which
adding 999 before flooring equals the real ceiling. -/
def remainingCooldownSeconds (elapsed : Int) : Int :=
  (60 * 1000 - elapsed + 999) / 1000

/-- Handler resendVerificationCode
(src/server/src/handlers/resend_verification_code.ts lines 34-156) in the
fallback mode with no provider configured; freshCode stands for the random
6-digit code generated at line 127, and the stored provider reference is
kept unchanged on that path (line 94). -/
def resendVerificationCode (db : DB) (now : Int) (userId : Nat)
    (freshCode : String) : PhoneVerificationResponse × DB :=
  match (db.users.filter (fun a => a.id == userId)).head? with
  | none =>
    ({ success := false, message := "User not found", verification_id := none }, db)
  | some _user =>
    match latestAttempt (db.phoneVerifications.filter
        (fun a => a.user_id == userId && a.verified == false)) with
    | none =>
      ({ success := false,
         message := "No pending verification found. Please start a new phone verification.",
         verification_id := none }, db)
    | some verification =>
      let elapsed := now - verification.created_at
      if elapsed < 60 * 1000 then
        ({ success := false,
           message := "Please wait " ++ toString (remainingCooldownSeconds elapsed)
             ++ " seconds before requesting a new code",
           verification_id := none }, db)
      else if verification.expires_at < now then
        ({ success := false,
           message := "Verification has expired. Please start a new phone verification.",
           verification_id := none }, db)
      else
        let attempts1 : List PhoneVerification :=
          db.phoneVerifications.map
            (fun a => if a.id == verification.id then
               { a with verification_code := freshCode,
                        twilio_sid := verification.twilio_sid,
                        created_at := now, expires_at := now + 10 * 60 * 1000 }
             else a)
        let db1 : DB := { db with phoneVerifications := attempts1 }
        let returned : Option PhoneVerification :=
          (attempts1.filter (fun a => a.id == verification.id)).head?
        ({ success := true, message := "New verification code sent successfully",
           verification_id := returned.map (fun a => a.id) }, db1)

/-- The try/catch wrapper of startPhoneVerification (lines 35 and 157-163):
the whole body runs inside try, and the catch clause returns a structured
failure carrying the message of the thrown error.  storeFault models the
storage layer throwing with the given message before any write. -/
def startPhoneVerificationRun (storeFault : Option String) (db : DB)
    (now : Int) (user_id : Nat) (phone_number : String) (freshCode : String) :
    Except String (PhoneVerificationResponse × DB) :=
  Except.ok (match storeFault with
    | some msg =>
      ({ success := false, message := msg, verification_id := none }, db)
    | none => startPhoneVerification db now user_id phone_number freshCode)

/-- The try/catch wrapper of resendVerificationCode (lines 35 and 149-155):
the catch clause returns a structured failure carrying the message of the
thrown error. -/
def resendVerificationCodeRun (storeFault : Option String) (db : DB)
    (now : Int) (userId : Nat) (freshCode : String) :
    Except String (PhoneVerificationResponse × DB) :=
  Except.ok (match storeFault with
    | some msg =>
      ({ success := false, message := msg, verification_id := none }, db)
    | none => resendVerificationCode db now userId freshCode)

/-- The try/catch wrapper of verifyPhoneCode (lines 40 and 133-139): the
catch clause returns a structured failure carrying the message of the
thrown error. -/
def verifyPhoneCodeRun (storeFault : Option String) (db : DB) (now : Int)
    (user_id : Nat) (verification_code : String) :
    Except String (VerifyCodeResponse × DB × List DbWrite) :=
  Except.ok (match storeFault with
    | some msg => ({ success := false, message := msg, user := none }, db, [])
    | none => verifyPhoneCode db now user_id verification_code)

/-- Fixture user for concrete scenarios. -/
def exUser : User :=
  { id := 1, email := "a@x.com", first_name := "A", phone_number := none,
    phone_verified := false, created_at := 0, updated_at := 0 }

/-- Fixture pending attempt for account 1, code 123456, created at time 0,
expiring at time 600000. -/
def exAttempt : PhoneVerification :=
  { id := 1, user_id := 1, phone_number := "+15551234567",
    verification_code := "123456", twilio_sid := none, verified := false,
    expires_at := 600000, created_at := 0 }

/-- Fixture database with one user and one pending attempt. -/
def exDb : DB := { users := [exUser], phoneVerifications := [exAttempt] }

/-- Fixture database whose only attempt is already verified. -/
def exDbVerified : DB :=
  { users := [exUser], phoneVerifications := [{ exAttempt with verified := true }] }

/-- Fixture database with the pending attempt but no user row. -/
def exDbNoUser : DB := { users := [], phoneVerifications := [exAttempt] }

/-- Fixture database with no rows at all. -/
def exDbEmpty : DB := { users := [], phoneVerifications := [] }

/-- Fixture database whose attempt expired almost immediately, so it is
expired while still inside the 5-minute creation window. -/
def exDbShort : DB :=
  { users := [exUser],
    phoneVerifications := [{ exAttempt with expires_at := 50 }] }

/-- First of two attempts of account 7 sharing created_at 100. -/
def tieA : PhoneVerification :=
  { id := 1, user_id := 7, phone_number := "+15550000001",
    verification_code := "111111", twilio_sid := none, verified := false,
    expires_at := 1000, created_at := 100 }

/-- Second of the two attempts sharing created_at 100, with the higher id. -/
def tieB : PhoneVerification :=
  { id := 2, user_id := 7, phone_number := "+15550000002",
    verification_code := "222222", twilio_sid := none, verified := false,
    expires_at := 1000, created_at := 100 }

/-- Fixture database holding the created_at tie for account 7. -/
def tieDb : DB :=
  { users := [{ exUser with id := 7 }], phoneVerifications := [tieA, tieB] }

/-- The latest-attempt query returns nothing exactly on the empty row set. -/
theorem latestAttempt_eq_none (rows : List PhoneVerification) :
    latestAttempt rows = none ↔ rows = [] := by
  cases rows with
  | nil => simp [latestAttempt]
  | cons r rest =>
    simp only [latestAttempt]
    cases h : latestAttempt rest with
    | none => simp
    | some b => by_cases hc : b.created_at > r.created_at <;> simp [hc]

/-- Characterization of the latest-attempt query: the selected row splits
the stored list into a strictly younger earlier part and a no-younger later
part, i.e. it is the earliest-stored row among those with maximal
created_at. -/
theorem latestAttempt_decomp (rows : List PhoneVerification) :
    ∀ r, latestAttempt rows = some r →
      ∃ l₁ l₂, rows = l₁ ++ r :: l₂ ∧ (∀ x ∈ l₁, x.created_at < r.created_at) ∧
        ∀ x ∈ l₂, x.created_at ≤ r.created_at := by
  induction rows with
  | nil => intro r h; simp [latestAttempt] at h
  | cons a rest ih =>
    intro r h
    simp only [latestAttempt] at h
    cases hrest : latestAttempt rest with
    | none =>
      rw [hrest] at h
      simp only [Option.some.injEq] at h
      subst h
      have hnil : rest = [] := (latestAttempt_eq_none rest).mp hrest
      subst hnil
      exact ⟨[], [], rfl, by simp, by simp⟩
    | some b =>
      rw [hrest] at h
      have h2 : (if b.created_at > a.created_at then some b else some a) = some r := h
      by_cases hc : b.created_at > a.created_at
      · rw [if_pos hc] at h2
        simp only [Option.some.injEq] at h2
        subst h2
        obtain ⟨l₁, l₂, hsplit, hlt, hle⟩ := ih _ hrest
        refine ⟨a :: l₁, l₂, by rw [hsplit]; rfl, ?_, hle⟩
        intro x hx
        rcases List.mem_cons.mp hx with rfl | hx2
        · exact hc
        · exact hlt x hx2
      · rw [if_neg hc] at h2
        simp only [Option.some.injEq] at h2
        subst h2
        obtain ⟨l₁, l₂, hsplit, hlt, hle⟩ := ih b hrest
        refine ⟨[], rest, rfl, by simp, ?_⟩
        intro x hx
        have hxb : x.created_at ≤ b.created_at := by
          rw [hsplit] at hx
          rcases List.mem_append.mp hx with h1 | h2
          · exact le_of_lt (hlt x h1)
          · rcases List.mem_cons.mp h2 with rfl | h3
            · exact le_refl _
            · exact hle x h3
        exact le_trans hxb (not_lt.mp hc)

/-- The row returned by the latest-attempt query is a stored row. -/
theorem latestAttempt_mem (rows : List PhoneVerification) (r : PhoneVerification)
    (h : latestAttempt rows = some r) : r ∈ rows := by
  obtain ⟨l₁, l₂, hsplit, -, -⟩ := latestAttempt_decomp rows r h
  rw [hsplit]
  exact List.mem_append_right _ (List.mem_cons_self _ _)

/-- An update-by-predicate over rows none of which satisfy the predicate is
the identity. -/
theorem map_update_id {α : Type} (l : List α) (p : α → Bool) (f : α → α)
    (h : ∀ a ∈ l, p a = false) :
    l.map (fun a => if p a then f a else a) = l := by
  induction l with
  | nil => rfl
  | cons a t ih =>
    have hpa : p a = false := h a (List.mem_cons_self a t)
    have ht := ih (fun x hx => h x (List.mem_cons_of_mem a hx))
    simp [hpa, ht]

/-- The id of the first row matching an id filter after an id-preserving
rewrite of a list that contains a row with that id. -/
theorem filter_map_head_id (l : List PhoneVerification)
    (g : PhoneVerification → PhoneVerification) (n : Nat)
    (hg : ∀ a, (g a).id = a.id) (hmem : ∃ a ∈ l, a.id = n) :
    (((l.map g).filter (fun a => a.id == n)).head?).map (fun a => a.id) = some n := by
  induction l with
  | nil => simp at hmem
  | cons b t ih =>
    by_cases hb : b.id = n
    · simp [List.filter_cons, hg b, hb]
    · obtain ⟨a, ha, han⟩ := hmem
      rcases List.mem_cons.mp ha with rfl | hat
      · exact absurd han hb
      · simp only [List.map_cons, List.filter_cons, hg b]
        rw [if_neg (by simp [hb])]
        exact ih ⟨a, hat, han⟩

/-- C1: for every verify-code invocation where the latest attempt for the
account is unexpired, not yet verified, and the submitted code is valid,
the handler marks the verified flag of that attempt true, then updates the
account so that phone_number equals the attempt phone number,
phone_verified is true and updated_at is the current time, and returns
success carrying the updated account; the write trace places the attempt
update strictly before the account update. -/
theorem C1_verify_success (db : DB) (now : Int) (uid : Nat) (code : String)
    (v : PhoneVerification) (u : User)
    (hv : latestAttempt (db.phoneVerifications.filter (fun a => a.user_id == uid)) = some v)
    (hexp : ¬ v.expires_at < now) (hver : v.verified = false)
    (hcode : v.verification_code = code)
    (hu : (db.users.filter (fun a => a.id == uid)).head? = some u) :
    verifyPhoneCode db now uid code =
      ({ success := true, message := "Phone number verified successfully.",
         user := some { u with phone_number := some v.phone_number,
                               phone_verified := true, updated_at := now } },
       { users := db.users.map (fun a => if a.id == uid then
           { a with phone_number := some v.phone_number, phone_verified := true,
                    updated_at := now } else a),
         phoneVerifications := db.phoneVerifications.map (fun a =>
           if a.id == v.id then { a with verified := true } else a) },
       [DbWrite.markAttemptVerified v.id,
        DbWrite.updateUserVerified uid v.phone_number now]) := by
  simp only [verifyPhoneCode, hv]
  rw [if_neg hexp]
  simp only [hver, Bool.false_eq_true, if_false]
  rw [hcode]
  simp [List.head?_map, hu]

/-- C2: when the latest attempt has expires_at in the past the result is
the expired failure whatever the submitted code and whatever the verified
flag, with no write; when it is unexpired but already verified the result
is the already-used failure whatever the submitted code, with no write; so
the expiry check precedes the already-used check and both precede any code
comparison. -/
theorem C2_expired_then_used (db : DB) (now : Int) (uid : Nat) (code : String)
    (v : PhoneVerification)
    (hv : latestAttempt (db.phoneVerifications.filter (fun a => a.user_id == uid)) = some v) :
    (v.expires_at < now →
      verifyPhoneCode db now uid code =
        ({ success := false,
           message := "Verification code has expired. Please request a new code.",
           user := none }, db, [])) ∧
    (¬ v.expires_at < now → v.verified = true →
      verifyPhoneCode db now uid code =
        ({ success := false,
           message := "This verification code has already been used.",
           user := none }, db, [])) := by
  constructor
  · intro hexp
    simp only [verifyPhoneCode, hv]
    rw [if_pos hexp]
  · intro hexp hver
    simp only [verifyPhoneCode, hv]
    rw [if_neg hexp]
    simp [hver]

/-- C3: when the latest attempt is unexpired and unverified but the
submitted code does not match, the handler returns the invalid-code failure
with the database unchanged and an empty write trace, and a later
invocation on that same database with the correct code before expiry
succeeds and performs both writes. -/
theorem C3_invalid_code_no_write (db : DB) (now : Int) (uid : Nat) (code : String)
    (v : PhoneVerification)
    (hv : latestAttempt (db.phoneVerifications.filter (fun a => a.user_id == uid)) = some v)
    (hexp : ¬ v.expires_at < now) (hver : v.verified = false)
    (hcode : v.verification_code ≠ code) :
    verifyPhoneCode db now uid code =
      ({ success := false, message := "Invalid verification code. Please try again.",
         user := none }, db, []) ∧
    (∀ later : Int, ¬ v.expires_at < later →
      (verifyPhoneCode db later uid v.verification_code).1.success = true ∧
      (verifyPhoneCode db later uid v.verification_code).2.2 =
        [DbWrite.markAttemptVerified v.id,
         DbWrite.updateUserVerified uid v.phone_number later]) := by
  constructor
  · simp only [verifyPhoneCode, hv]
    rw [if_neg hexp]
    simp only [hver, Bool.false_eq_true, if_false]
    rw [if_neg (by simp [hcode])]
  · intro later hlater
    simp only [verifyPhoneCode, hv]
    rw [if_neg hlater]
    simp [hver]

/-- C10: verify-code never checks that the account exists; when the latest
attempt is valid but no user row matches the account id, the handler still
marks the attempt verified, performs both writes, and returns success true
with the user field absent rather than reporting a failure. -/
theorem C10_success_without_user (db : DB) (now : Int) (uid : Nat) (code : String)
    (v : PhoneVerification)
    (hv : latestAttempt (db.phoneVerifications.filter (fun a => a.user_id == uid)) = some v)
    (hexp : ¬ v.expires_at < now) (hver : v.verified = false)
    (hcode : v.verification_code = code)
    (hnouser : db.users.filter (fun a => a.id == uid) = []) :
    verifyPhoneCode db now uid code =
      ({ success := true, message := "Phone number verified successfully.",
         user := none },
       { users := db.users,
         phoneVerifications := db.phoneVerifications.map (fun a =>
           if a.id == v.id then { a with verified := true } else a) },
       [DbWrite.markAttemptVerified v.id,
        DbWrite.updateUserVerified uid v.phone_number now]) := by
  have hnone : ∀ a ∈ db.users, (a.id == uid) = false := by
    intro a ha
    by_contra hne
    have : a ∈ db.users.filter (fun a => a.id == uid) :=
      List.mem_filter.mpr ⟨ha, by simpa using hne⟩
    rw [hnouser] at this
    exact absurd this (List.not_mem_nil a)
  have husers : db.users.map (fun a => if a.id == uid then
      { a with phone_number := some v.phone_number, phone_verified := true,
               updated_at := now } else a) = db.users :=
    map_update_id db.users (fun a => a.id == uid) _ hnone
  simp only [verifyPhoneCode, hv]
  rw [if_neg hexp]
  simp only [hver, Bool.false_eq_true, if_false]
  rw [hcode]
  simp [List.head?_map, hnouser]
  simpa using husers

/-- C5 amended: the attempt examined by verify-code is selected from all
attempts of the account, across phone numbers and both verified states, by
created_at descending; the query carries no id tie-break, so among rows
sharing the maximal created_at the earliest-stored row is returned. -/
theorem C5_latest_selection (db : DB) (uid : Nat) (r : PhoneVerification)
    (hr : latestAttempt (db.phoneVerifications.filter (fun a => a.user_id == uid)) = some r) :
    r.user_id = uid ∧
    ∃ l₁ l₂, db.phoneVerifications.filter (fun a => a.user_id == uid) = l₁ ++ r :: l₂ ∧
      (∀ x ∈ l₁, x.created_at < r.created_at) ∧
      (∀ x ∈ l₂, x.created_at ≤ r.created_at) := by
  constructor
  · have hmem := latestAttempt_mem _ _ hr
    have hpred := List.of_mem_filter hmem
    simpa using hpred
  · exact latestAttempt_decomp _ _ hr

/-- C5 counterexample: the two attempts of account 7 share created_at 100
with ids 1 and 2 and codes 111111 and 222222; the claim predicts the row
with the higher id 2 is selected, but the query returns the row with id 1,
so the code of row 2 is rejected as invalid while the code of row 1
verifies successfully. -/
theorem C5_counterexample :
    latestAttempt (tieDb.phoneVerifications.filter (fun a => a.user_id == 7)) = some tieA ∧
    tieA.id = 1 ∧ tieB.id = 2 ∧ tieA.created_at = tieB.created_at ∧
    tieB ∈ tieDb.phoneVerifications ∧
    (verifyPhoneCode tieDb 500 7 "222222").1.message =
      "Invalid verification code. Please try again." ∧
    (verifyPhoneCode tieDb 500 7 "111111").1.success = true := by decide

/-- C4: when the most recent attempt for the pair of account id and
normalized phone was created less than 5 minutes ago and its expires_at is
still in the future, start-verification fails with the cooldown message and
inserts nothing; when that attempt is already expired or at least 5 minutes
old, the cooldown does not block and a new attempt is inserted even within
the original 5-minute window. -/
theorem C4_start_cooldown (db : DB) (now : Int) (uid : Nat)
    (phone fresh : String) (u : User) (v : PhoneVerification)
    (hu : (db.users.filter (fun a => a.id == uid)).head? = some u)
    (hnv : (u.phone_verified &&
      (u.phone_number == some (formatPhoneNumberE164 phone))) = false)
    (hv : latestAttempt (db.phoneVerifications.filter
      (fun a => a.user_id == uid && a.phone_number == formatPhoneNumberE164 phone))
      = some v) :
    (now - v.created_at < 5 * 60 * 1000 → v.expires_at > now →
      startPhoneVerification db now uid phone fresh =
        ({ success := false,
           message := "Verification code already sent recently. Please wait before requesting another.",
           verification_id := none }, db)) ∧
    (v.expires_at < now ∨ 5 * 60 * 1000 ≤ now - v.created_at →
      startPhoneVerification db now uid phone fresh =
        ({ success := true, message := "Verification code sent successfully",
           verification_id := some (nextAttemptId db) },
         { db with phoneVerifications := db.phoneVerifications ++
             [{ id := nextAttemptId db, user_id := uid,
                phone_number := formatPhoneNumberE164 phone,
                verification_code := fresh, twilio_sid := none, verified := false,
                expires_at := now + 10 * 60 * 1000, created_at := now }] })) := by
  constructor
  · intro h1 h2
    simp only [startPhoneVerification, hu, hnv, Bool.false_eq_true, if_false, hv]
    rw [if_pos (by simp only [Bool.and_eq_true, decide_eq_true_eq]; exact ⟨by omega, h2⟩)]
  · intro hfree
    simp only [startPhoneVerification, hu, hnv, Bool.false_eq_true, if_false, hv]
    rw [if_neg ?_]
    intro hcb
    rcases hfree with hexp | hold
    · have := (Bool.and_eq_true _ _).mp hcb |>.2
      simp only [decide_eq_true_eq] at this
      exact absurd hexp (by omega)
    · have := (Bool.and_eq_true _ _).mp hcb |>.1
      simp only [decide_eq_true_eq] at this
      omega

/-- C6: with an existing account and a latest unverified attempt, a resend
less than 60 seconds after that attempt was created fails with the cooldown
message, writes nothing, and the reported remaining whole seconds are the
ceiling of the remainder, an integer between 1 and 60; the cooldown check
precedes the expiry check, which fails with the expired message when
expires_at is in the past. -/
theorem C6_resend_cooldown (db : DB) (now : Int) (uid : Nat) (fresh : String)
    (u : User) (v : PhoneVerification)
    (hu : (db.users.filter (fun a => a.id == uid)).head? = some u)
    (hv : latestAttempt (db.phoneVerifications.filter
      (fun a => a.user_id == uid && a.verified == false)) = some v) :
    (0 ≤ now - v.created_at → now - v.created_at < 60 * 1000 →
      resendVerificationCode db now uid fresh =
        ({ success := false,
           message := "Please wait "
             ++ toString (remainingCooldownSeconds (now - v.created_at))
             ++ " seconds before requesting a new code",
           verification_id := none }, db) ∧
      1 ≤ remainingCooldownSeconds (now - v.created_at) ∧
      remainingCooldownSeconds (now - v.created_at) ≤ 60) ∧
    (¬ now - v.created_at < 60 * 1000 → v.expires_at < now →
      resendVerificationCode db now uid fresh =
        ({ success := false,
           message := "Verification has expired. Please start a new phone verification.",
           verification_id := none }, db)) := by
  constructor
  · intro h0 h1
    refine ⟨?_, ?_, ?_⟩
    · simp only [resendVerificationCode, hu, hv]
      rw [if_pos h1]
    · have : (0:Int) < 60 * 1000 - (now - v.created_at) := by omega
      unfold remainingCooldownSeconds
      omega
    · unfold remainingCooldownSeconds
      omega
  · intro h1 h2
    simp only [resendVerificationCode, hu, hv]
    rw [if_neg h1, if_pos h2]

/-- C7: a successful resend updates the same attempt row in place, writing
the fresh code, the provider reference that applies (on the fallback path
the stored one, unchanged), created_at reset to the current time, and
expires_at reset to the current time plus 10 minutes; the row keeps its id,
user_id, phone_number and verified flag, every other row and the whole
users table stay unchanged, and the response returns the unchanged attempt
id. -/
theorem C7_resend_frame (db : DB) (now : Int) (uid : Nat) (fresh : String)
    (u : User) (v : PhoneVerification)
    (hu : (db.users.filter (fun a => a.id == uid)).head? = some u)
    (hv : latestAttempt (db.phoneVerifications.filter
      (fun a => a.user_id == uid && a.verified == false)) = some v)
    (hcd : ¬ now - v.created_at < 60 * 1000) (hexp : ¬ v.expires_at < now) :
    resendVerificationCode db now uid fresh =
      ({ success := true, message := "New verification code sent successfully",
         verification_id := some v.id },
       { db with phoneVerifications := db.phoneVerifications.map (fun a =>
           if a.id == v.id then
             { a with verification_code := fresh, twilio_sid := v.twilio_sid,
                      created_at := now, expires_at := now + 10 * 60 * 1000 }
           else a) }) := by
  have hmem : v ∈ db.phoneVerifications :=
    List.mem_of_mem_filter (latestAttempt_mem _ _ hv)
  have hid : (((db.phoneVerifications.map (fun a =>
      if a.id == v.id then
        { a with verification_code := fresh, twilio_sid := v.twilio_sid,
                 created_at := now, expires_at := now + 10 * 60 * 1000 }
      else a)).filter (fun a => a.id == v.id)).head?).map (fun a => a.id)
      = some v.id := by
    apply filter_map_head_id
    · intro a
      by_cases h : (a.id == v.id) = true <;> simp [h]
    · exact ⟨v, hmem, rfl⟩
  simp only [resendVerificationCode, hu, hv]
  rw [if_neg hcd, if_neg hexp]
  simp only [hid]

/-- C8 counterexample: the input with spaces between its 10 digits is
neither in E.164 shape nor a bare 10-digit number, so the claim says the
plus sign is prefixed to its cleaned digit string, yielding +5551234567,
but the source prefixes the default country code because the cleaned digit
string has 10 digits, yielding +15551234567. -/
theorem C8_counterexample :
    claimNormalizePhone "555 123 4567" = "+5551234567" ∧
    formatPhoneNumberE164 "555 123 4567" = "+15551234567" ∧
    claimNormalizePhone "555 123 4567" ≠ formatPhoneNumberE164 "555 123 4567" := by
  decide

/-- C8 amended: an input starting with a plus sign is kept verbatim;
otherwise, when the cleaned digit string (non-digits removed) has exactly
10 digits, the default country code is prefixed to the cleaned digits;
otherwise a plus sign is prefixed to the cleaned digit string; and every
input whose final normalized form fails the E.164 regex is rejected with a
validation error before any store access. -/
theorem C8_format_amended (s : String) (db : DB) (now : Int) (uid : Nat)
    (fresh : String) :
    formatPhoneNumberE164 s =
      (if startsWithPlus s then s
       else if (cleanDigits s).length = 10 then "+1" ++ cleanDigits s
       else "+" ++ cleanDigits s) ∧
    (e164Test (formatPhoneNumberE164 s) = false →
      startPhoneVerificationChecked db now uid s fresh =
        Except.error "Phone number must be in E.164 format (e.g., +1234567890)") := by
  constructor
  · rfl
  · intro h
    simp [startPhoneVerificationChecked, h]

/-- C9 counterexample: a storage-layer fault thrown during
start-verification is not propagated: the catch clause converts it into a
structured failure result carrying the error message, contradicting the
claim that such faults always propagate as thrown fatal errors. -/
theorem C9_counterexample :
    startPhoneVerificationRun (some "storage failure") exDbEmpty 0 1
        "+15551234567" "111111" =
      Except.ok ({ success := false, message := "storage failure",
                   verification_id := none }, exDbEmpty) := rfl

/-- C9 amended: validation, not-found, conflict, expired and provider
failures are returned as structured results, and a storage-layer fault is
likewise caught by the try/catch of each of the three handlers and
converted into a structured failure result carrying the error message;
no handler rethrows it. -/
theorem C9_fault_caught (msg : String) (db : DB) (now : Int) (uid : Nat)
    (phone code fresh : String) :
    startPhoneVerificationRun (some msg) db now uid phone fresh =
      Except.ok ({ success := false, message := msg, verification_id := none }, db) ∧
    resendVerificationCodeRun (some msg) db now uid fresh =
      Except.ok ({ success := false, message := msg, verification_id := none }, db) ∧
    verifyPhoneCodeRun (some msg) db now uid code =
      Except.ok ({ success := false, message := msg, user := none }, db, []) :=
  ⟨rfl, rfl, rfl⟩

/-- Witness for C1 on the fixture database: the correct code at time 1000
verifies, updates the attempt and the user, and the writes happen in
order. -/
theorem C1_verify_success_witness :
    verifyPhoneCode exDb 1000 1 "123456" =
      ({ success := true, message := "Phone number verified successfully.",
         user := some { exUser with phone_number := some "+15551234567",
                                    phone_verified := true, updated_at := 1000 } },
       { users := exDb.users.map (fun a => if a.id == 1 then
           { a with phone_number := some "+15551234567", phone_verified := true,
                    updated_at := 1000 } else a),
         phoneVerifications := exDb.phoneVerifications.map (fun a =>
           if a.id == exAttempt.id then { a with verified := true } else a) },
       [DbWrite.markAttemptVerified exAttempt.id,
        DbWrite.updateUserVerified 1 "+15551234567" 1000]) :=
  C1_verify_success exDb 1000 1 "123456" exAttempt exUser rfl (by decide) rfl
    rfl rfl

/-- Witness for C2 on the fixtures: the expired attempt rejects its own
correct code with the expired message, and the already-verified attempt
rejects its own correct code with the already-used message. -/
theorem C2_expired_then_used_witness :
    verifyPhoneCode exDb 700000 1 "123456" =
      ({ success := false,
         message := "Verification code has expired. Please request a new code.",
         user := none }, exDb, []) ∧
    verifyPhoneCode exDbVerified 1000 1 "123456" =
      ({ success := false,
         message := "This verification code has already been used.",
         user := none }, exDbVerified, []) :=
  ⟨(C2_expired_then_used exDb 700000 1 "123456" exAttempt rfl).1 (by decide),
   (C2_expired_then_used exDbVerified 1000 1 "123456"
     { exAttempt with verified := true } rfl).2 (by decide) rfl⟩

/-- Witness for C3 on the fixture database: the wrong code is rejected
without any write, and the correct code still succeeds afterwards. -/
theorem C3_invalid_code_no_write_witness :
    verifyPhoneCode exDb 1000 1 "000000" =
      ({ success := false, message := "Invalid verification code. Please try again.",
         user := none }, exDb, []) ∧
    ((verifyPhoneCode exDb 2000 1 "123456").1.success = true ∧
     (verifyPhoneCode exDb 2000 1 "123456").2.2 =
       [DbWrite.markAttemptVerified exAttempt.id,
        DbWrite.updateUserVerified 1 exAttempt.phone_number 2000]) :=
  ⟨(C3_invalid_code_no_write exDb 1000 1 "000000" exAttempt rfl (by decide) rfl
      (by decide)).1,
   (C3_invalid_code_no_write exDb 1000 1 "000000" exAttempt rfl (by decide) rfl
      (by decide)).2 2000 (by decide)⟩

/-- Witness for C4 on the fixtures: a second start inside the window with
an unexpired attempt is blocked, while an expired attempt does not block
even 100 milliseconds after creation. -/
theorem C4_start_cooldown_witness :
    startPhoneVerification exDb 1000 1 "+15551234567" "654321" =
      ({ success := false,
         message := "Verification code already sent recently. Please wait before requesting another.",
         verification_id := none }, exDb) ∧
    startPhoneVerification exDbShort 100 1 "+15551234567" "654321" =
      ({ success := true, message := "Verification code sent successfully",
         verification_id := some (nextAttemptId exDbShort) },
       { exDbShort with phoneVerifications := exDbShort.phoneVerifications ++
           [{ id := nextAttemptId exDbShort, user_id := 1,
              phone_number := formatPhoneNumberE164 "+15551234567",
              verification_code := "654321", twilio_sid := none, verified := false,
              expires_at := 100 + 10 * 60 * 1000, created_at := 100 }] }) :=
  ⟨(C4_start_cooldown exDb 1000 1 "+15551234567" "654321" exUser exAttempt rfl
      rfl rfl).1 (by decide) (by decide),
   (C4_start_cooldown exDbShort 100 1 "+15551234567" "654321" exUser
      { exAttempt with expires_at := 50 } rfl rfl rfl).2 (Or.inl (by decide))⟩

/-- Witness for C5 amended on the tie fixture: the selected row tieA splits
the filtered list with the required created_at bounds. -/
theorem C5_latest_selection_witness :
    tieA.user_id = 7 ∧
    ∃ l₁ l₂, tieDb.phoneVerifications.filter (fun a => a.user_id == 7) =
        l₁ ++ tieA :: l₂ ∧
      (∀ x ∈ l₁, x.created_at < tieA.created_at) ∧
      (∀ x ∈ l₂, x.created_at ≤ tieA.created_at) :=
  C5_latest_selection tieDb 7 tieA rfl

/-- Witness for C6 on the fixture database: a resend 30 seconds after
creation is blocked with 30 remaining seconds, and a resend after both the
cooldown and the expiry fails with the expired message. -/
theorem C6_resend_cooldown_witness :
    (resendVerificationCode exDb 30000 1 "222222" =
      ({ success := false,
         message := "Please wait "
           ++ toString (remainingCooldownSeconds (30000 - exAttempt.created_at))
           ++ " seconds before requesting a new code",
         verification_id := none }, exDb) ∧
     1 ≤ remainingCooldownSeconds (30000 - exAttempt.created_at) ∧
     remainingCooldownSeconds (30000 - exAttempt.created_at) ≤ 60) ∧
    resendVerificationCode exDb 650000 1 "222222" =
      ({ success := false,
         message := "Verification has expired. Please start a new phone verification.",
         verification_id := none }, exDb) :=
  ⟨(C6_resend_cooldown exDb 30000 1 "222222" exUser exAttempt rfl rfl).1
      (by decide) (by decide),
   (C6_resend_cooldown exDb 650000 1 "222222" exUser exAttempt rfl rfl).2
      (by decide) (by decide)⟩

/-- Witness for C7 on the fixture database: the resend at time 70000
rewrites the single attempt row in place and returns its unchanged id. -/
theorem C7_resend_frame_witness :
    resendVerificationCode exDb 70000 1 "654321" =
      ({ success := true, message := "New verification code sent successfully",
         verification_id := some exAttempt.id },
       { exDb with phoneVerifications := exDb.phoneVerifications.map (fun a =>
           if a.id == exAttempt.id then
             { a with verification_code := "654321",
                      twilio_sid := exAttempt.twilio_sid,
                      created_at := 70000, expires_at := 70000 + 10 * 60 * 1000 }
           else a) }) :=
  C7_resend_frame exDb 70000 1 "654321" exUser exAttempt rfl rfl (by decide)
    (by decide)

/-- Witness for C8 amended on the input abc: the cleaned digit string is
empty, the formatted form is the bare plus sign, and the boundary check
rejects it before the handler runs. -/
theorem C8_format_amended_witness :
    formatPhoneNumberE164 "abc" =
      (if startsWithPlus "abc" then "abc"
       else if (cleanDigits "abc").length = 10 then "+1" ++ cleanDigits "abc"
       else "+" ++ cleanDigits "abc") ∧
    startPhoneVerificationChecked exDbEmpty 0 1 "abc" "111111" =
      Except.error "Phone number must be in E.164 format (e.g., +1234567890)" :=
  ⟨(C8_format_amended "abc" exDbEmpty 0 1 "111111").1,
   (C8_format_amended "abc" exDbEmpty 0 1 "111111").2 (by decide)⟩

/-- Witness for C10 on the fixture database lacking the user row: the
correct code still verifies, the attempt is marked verified, and the
response carries no user value. -/
theorem C10_success_without_user_witness :
    verifyPhoneCode exDbNoUser 1000 1 "123456" =
      ({ success := true, message := "Phone number verified successfully.",
         user := none },
       { users := exDbNoUser.users,
         phoneVerifications := exDbNoUser.phoneVerifications.map (fun a =>
           if a.id == exAttempt.id then { a with verified := true } else a) },
       [DbWrite.markAttemptVerified exAttempt.id,
        DbWrite.updateUserVerified 1 exAttempt.phone_number 1000]) :=
  C10_success_without_user exDbNoUser 1000 1 "123456" exAttempt rfl (by decide)
    rfl rfl rfl

end PhoneVerif
